import Mathlib

/-!
Verification of RustProxy-socks5 against its natural-language specification.

Shallow embedding of the Rust sources:
* `src/protocol/handler.rs`, `src/protocol/constants.rs`, `src/protocol/types.rs`
* `src/relay/engine.rs`
* `src/routing/rules.rs`, `src/routing/smart.rs`
* `src/security/fail2ban.rs`, `src/security/rate_limiter.rs`,
  `src/security/ddos_protection.rs`
* `src/auth/types.rs`, `src/auth/manager.rs`

Machine integers are modelled as `Nat` (with explicit wrap-around where the
Rust code can overflow), `f64` quantities as `ℚ`, `Instant`/`Duration` as
`Nat` or `ℚ` time stamps, and Rust `Result`/`Option` as `Except`/`Option`.
-/

namespace RustProxy

/-! ## Constants (`src/protocol/constants.rs`) -/

def SOCKS5_VERSION : Nat := 0x05
def SOCKS5_CMD_CONNECT : Nat := 0x01
def SOCKS5_ADDR_IPV4 : Nat := 0x01
def SOCKS5_ADDR_DOMAIN : Nat := 0x03
def SOCKS5_ADDR_IPV6 : Nat := 0x04
def SOCKS5_AUTH_NONE : Nat := 0x00
def SOCKS5_AUTH_USERPASS : Nat := 0x02
def SOCKS5_AUTH_UNSUPPORTED : Nat := 0xFF
def SOCKS5_REPLY_GENERAL_FAILURE : Nat := 0x01
def SOCKS5_REPLY_NETWORK_UNREACHABLE : Nat := 0x03
def SOCKS5_REPLY_HOST_UNREACHABLE : Nat := 0x04
def SOCKS5_REPLY_CONNECTION_REFUSED : Nat := 0x05
def SOCKS5_REPLY_TTL_EXPIRED : Nat := 0x06
def SOCKS5_RESERVED : Nat := 0x00

/-! ## Authentication method selection (`src/protocol/handler.rs`) -/

/-- `AuthMethod` from `src/protocol/types.rs`. -/
inductive AuthMethod where
  | noAuth
  | userPass
  | unsupported
  deriving DecidableEq, Repr

/-- `AuthMethod::method_code` from `src/protocol/types.rs`. -/
def AuthMethod.methodCode : AuthMethod → Nat
  | .noAuth => SOCKS5_AUTH_NONE
  | .userPass => SOCKS5_AUTH_USERPASS
  | .unsupported => SOCKS5_AUTH_UNSUPPORTED

/-- `Socks5Handler::select_auth_method` from `src/protocol/handler.rs`
(lines 65-74): prefer no authentication if the client offered it,
otherwise username/password, otherwise unsupported.  The function does not
consult the global authentication setting. -/
def selectAuthMethod (methods : List Nat) : AuthMethod :=
  if methods.contains SOCKS5_AUTH_NONE then .noAuth
  else if methods.contains SOCKS5_AUTH_USERPASS then .userPass
  else .unsupported

/-- Selection rule as the spec sentence words it: `NoAuth` only when
authentication is globally disabled AND the client offered `0x00`;
otherwise `UserPass` when offered; otherwise `0xFF`.  Used to compare the
spec's claim with the code's `selectAuthMethod`. -/
def specSelectAuthMethod (authEnabled : Bool) (methods : List Nat) : AuthMethod :=
  if !authEnabled && methods.contains SOCKS5_AUTH_NONE then .noAuth
  else if methods.contains SOCKS5_AUTH_USERPASS then .userPass
  else .unsupported

/-! ## SOCKS5 error-code mapping (`src/relay/engine.rs`, lines 129-145) -/

/-- `RelayEngine::connection_error_to_socks5_code`: lowercase the error
text, then scan for substrings in order.  Each branch repeats the exact
pair of `contains` calls of the Rust source (`str::contains` is substring
containment, modelled by `List.IsInfix`). -/
def connectionErrorToSocks5Code (errorText : List Char) : Nat :=
  let s := errorText.map Char.toLower
  if "timed out".toList <:+: s ∨ "timeout".toList <:+: s then
    SOCKS5_REPLY_TTL_EXPIRED
  else if "connection refused".toList <:+: s ∨ "refused".toList <:+: s then
    SOCKS5_REPLY_CONNECTION_REFUSED
  else if "network unreachable".toList <:+: s ∨ "unreachable".toList <:+: s then
    SOCKS5_REPLY_NETWORK_UNREACHABLE
  else if "host unreachable".toList <:+: s ∨ "no route".toList <:+: s then
    SOCKS5_REPLY_HOST_UNREACHABLE
  else if "dns".toList <:+: s ∨ "resolution".toList <:+: s then
    SOCKS5_REPLY_HOST_UNREACHABLE
  else
    SOCKS5_REPLY_GENERAL_FAILURE

/-- The error-code mapping exactly as the claim words it: `timeout` →
TtlExpired, else `refused` → ConnectionRefused, else `network unreachable`
→ NetworkUnreachable, else `host unreachable`/`no route` →
HostUnreachable, else `dns`/`resolution` → HostUnreachable, else
GeneralFailure. -/
def claimErrorToSocks5Code (errorText : List Char) : Nat :=
  let s := errorText.map Char.toLower
  if "timeout".toList <:+: s then SOCKS5_REPLY_TTL_EXPIRED
  else if "refused".toList <:+: s then SOCKS5_REPLY_CONNECTION_REFUSED
  else if "network unreachable".toList <:+: s then SOCKS5_REPLY_NETWORK_UNREACHABLE
  else if "host unreachable".toList <:+: s ∨ "no route".toList <:+: s then
    SOCKS5_REPLY_HOST_UNREACHABLE
  else if "dns".toList <:+: s ∨ "resolution".toList <:+: s then
    SOCKS5_REPLY_HOST_UNREACHABLE
  else SOCKS5_REPLY_GENERAL_FAILURE

/-! ## Target addresses (`src/protocol/types.rs`)

Rust `String`s are modelled throughout as their UTF-8 byte sequences
(`List Nat`, each entry a byte).  `TargetAddr::Ipv4`/`Ipv6` carry their
octets. -/

inductive TargetAddr where
  | ipv4 (octets : List Nat)
  | ipv6 (octets : List Nat)
  | domain (bytes : List Nat)
  deriving DecidableEq, Repr

/-- `TargetAddr::address_type` from `src/protocol/types.rs`. -/
def TargetAddr.addressType : TargetAddr → Nat
  | .ipv4 _ => SOCKS5_ADDR_IPV4
  | .ipv6 _ => SOCKS5_ADDR_IPV6
  | .domain _ => SOCKS5_ADDR_DOMAIN

/-! ## Routing rules engine (`src/routing/rules.rs`) -/

/-- An IP address: family flag plus numeric value (32-bit or 128-bit). -/
structure Ip where
  v6 : Bool
  val : Nat
  deriving DecidableEq, Repr

/-- Decimal rendering of a `Nat`, as ASCII bytes (`u8::to_string`). -/
def natDecimalBytes (n : Nat) : List Nat :=
  (toString n).toList.map Char.toNat

/-- Lowercase hexadecimal rendering of a `Nat`, as ASCII bytes. -/
def natHexBytes (n : Nat) : List Nat :=
  (Nat.toDigits 16 n).map Char.toNat

/-- Group sixteen IPv6 octets into eight 16-bit groups. -/
def ipv6Groups : List Nat → List Nat
  | a :: b :: rest => (a * 256 + b) :: ipv6Groups rest
  | _ => []

/-- The display string of a `TargetAddr` (`TargetAddr::to_string`, used by
`matches_pattern`): dotted decimal for IPv4, colon-separated lowercase hex
groups for IPv6, the domain itself otherwise.  (The Rust standard library
renders IPv6 with RFC 5952 zero-compression; this model uses the
uncompressed eight-group form.  No theorem below depends on the exact
IPv6 rendering.) -/
def targetToDisplayBytes : TargetAddr → List Nat
  | .ipv4 o => List.intercalate [46] (o.map natDecimalBytes)
  | .ipv6 o => List.intercalate [58] ((ipv6Groups o).map natHexBytes)
  | .domain d => d

/-- Anchored glob matching with `*` (byte 42) and `?` (byte 63): the
semantics of the regex `^p$` that `matches_wildcard` builds from a
wildcard pattern (for patterns whose only regex metacharacters are `.`,
`*`, `?`; `.` is escaped by the Rust code). -/
def globMatch (ps s : List Nat) : Bool :=
  match ps, s with
  | [], [] => true
  | [], _ :: _ => false
  | p :: tl, s =>
    if p = 42 then
      globMatch tl s ||
        (match s with
         | [] => false
         | _ :: s' => globMatch (p :: tl) s')
    else
      match s with
      | [] => false
      | c :: s' => (p = 63 || p = c) && globMatch tl s'
  termination_by (ps.length, s.length)

/-- A source-IP pattern after parsing (`matches_ip_pattern` parses each
pattern string as an exact `IpAddr` or as an `IpNet`; strings that parse
as neither never match). -/
inductive IpPattern where
  | addr (ip : Ip)
  | cidr (net : Ip) (plen : Nat)
  | malformed

/-- Number of address bits for a CIDR family. -/
def cidrBits (v6 : Bool) : Nat := if v6 then 128 else 32

/-- `IpNet::contains`: same family and same network prefix. -/
def cidrContains (net : Ip) (plen : Nat) (ip : Ip) : Bool :=
  let shift := cidrBits net.v6 - min plen (cidrBits net.v6)
  ip.v6 == net.v6 && ip.val / 2 ^ shift == net.val / 2 ^ shift

/-- `RoutingRulesEngine::matches_ip_pattern`. -/
def matchesIpPattern : IpPattern → Ip → Bool
  | .addr p, ip => p == ip
  | .cidr net plen, ip => cidrContains net plen ip
  | .malformed, _ => false

/-- `RoutingRulesEngine::matches_source_ip`: any pattern matches. -/
def matchesSourceIp (patterns : List IpPattern) (ip : Ip) : Bool :=
  patterns.any (fun p => matchesIpPattern p ip)

/-- `PatternType` from `src/routing/rules.rs`.  The external regex
engine's `Regex::is_match` is modelled as the match function itself. -/
inductive PatternType where
  | exact (s : List Nat)
  | wildcard (s : List Nat)
  | regexMatch (f : List Nat → Bool)
  | ipCidr (net : Ip) (plen : Nat)
  | domainSuffix (suf : List Nat)
  | subdomainWildcard (base : List Nat)

/-- The numeric IP denoted by an address-typed `TargetAddr`. -/
def TargetAddr.toIp? : TargetAddr → Option Ip
  | .ipv4 o => some ⟨false, o.foldl (fun acc b => acc * 256 + b) 0⟩
  | .ipv6 o => some ⟨true, o.foldl (fun acc b => acc * 256 + b) 0⟩
  | .domain _ => none

/-- `RoutingRulesEngine::matches_pattern`.  Byte 46 is `'.'`. -/
def matchesPattern (pat : PatternType) (target : TargetAddr) : Bool :=
  let ts := targetToDisplayBytes target
  match pat with
  | .exact e => ts == e
  | .wildcard w => globMatch w ts
  | .regexMatch f => f ts
  | .ipCidr net plen =>
    match target.toIp? with
    | some ip => cidrContains net plen ip
    | none => false
  | .domainSuffix suf =>
    match target with
    | .domain d => decide (suf <:+ d)
    | _ => false
  | .subdomainWildcard base =>
    match target with
    | .domain d =>
      d == base ||
        (decide (base <:+ d) && d.get? (d.length - base.length - 1) == some 46)
    | _ => false

/-- A socket address. -/
structure SockAddr where
  ip : Ip
  port : Nat
  deriving DecidableEq, Repr

/-- `ProxyProtocol` from `src/routing/types.rs`. -/
inductive ProxyProtocol where
  | socks5
  | http
  deriving DecidableEq, Repr

/-- `UpstreamProxy` from `src/routing/types.rs` (`auth` is the optional
username/password pair). -/
structure UpstreamProxy where
  addr : SockAddr
  auth : Option (List Nat × List Nat)
  protocol : ProxyProtocol
  deriving DecidableEq, Repr

/-- `RoutingAction` from `src/routing/rules.rs`. -/
inductive RoutingAction where
  | allow
  | block (reason : Option (List Nat))
  | redirect (target : SockAddr)
  | proxy (upstreamId : List Nat)
  | proxyChain (upstreamIds : List (List Nat))

/-- `RouteDecision` from `src/routing/types.rs`. -/
inductive RouteDecision where
  | allow (upstream : Option UpstreamProxy)
  | block (reason : List Nat)
  | redirect (target : SockAddr)

/-- `RoutingRule` from `src/routing/rules.rs`.  `time_restrictions` is
matched as a pass-through by the source (marked TODO there), so only its
presence is modelled. -/
structure RoutingRule where
  id : List Nat
  priority : Nat
  pattern : List Nat
  action : RoutingAction
  ports : Option (List Nat)
  sourceIps : Option (List IpPattern)
  users : Option (List (List Nat))
  timeRestrictions : Option Unit
  enabled : Bool

/-- `RoutingRulesEngine`: the rule list, the compiled pattern per rule id,
and the upstream proxies by id (the Rust `HashMap`s become association
lists). -/
structure RoutingRulesEngine where
  rules : List RoutingRule
  compiledPatterns : List (List Nat × PatternType)
  upstreamProxies : List (List Nat × UpstreamProxy)

/-- Association-list lookup (`HashMap::get`). -/
def lookupAssoc {β : Type} (k : List Nat) (l : List (List Nat × β)) : Option β :=
  (l.find? (fun p => p.1 == k)).map Prod.snd

/-- Default reason of `RoutingAction::Block` (bytes of
`"Blocked by routing rule"`). -/
def defaultBlockReason : List Nat :=
  "Blocked by routing rule".toList.map Char.toNat

/-- `RoutingRulesEngine::matches_rule`: port restrictions, then source-IP
restrictions, then user restrictions, then the compiled pattern (a rule
whose compiled pattern is missing never matches). -/
def matchesRule (e : RoutingRulesEngine) (rule : RoutingRule)
    (target : TargetAddr) (port : Nat) (sourceIp : Ip)
    (user : Option (List Nat)) : Bool :=
  (match rule.ports with
   | some allowed => allowed.contains port
   | none => true) &&
  (match rule.sourceIps with
   | some patterns => matchesSourceIp patterns sourceIp
   | none => true) &&
  (match rule.users with
   | some allowed =>
     match user with
     | some u => allowed.contains u
     | none => allowed.isEmpty
   | none => true) &&
  (match lookupAssoc rule.id e.compiledPatterns with
   | some pat => matchesPattern pat target
   | none => false)

/-- `RoutingRulesEngine::apply_action`. -/
def applyAction (e : RoutingRulesEngine) (action : RoutingAction) : RouteDecision :=
  match action with
  | .allow => .allow none
  | .block reason => .block (reason.getD defaultBlockReason)
  | .redirect target => .redirect target
  | .proxy upstreamId =>
    match lookupAssoc upstreamId e.upstreamProxies with
    | some up => .allow (some up)
    | none => .allow none
  | .proxyChain upstreamIds =>
    match upstreamIds with
    | [] => .allow none
    | firstId :: _ =>
      match lookupAssoc firstId e.upstreamProxies with
      | some up => .allow (some up)
      | none => .allow none

/-- The `for rule in &self.rules` loop of
`RoutingRulesEngine::evaluate_rules`. -/
def evalLoop (e : RoutingRulesEngine) (rules : List RoutingRule)
    (target : TargetAddr) (port : Nat) (sourceIp : Ip)
    (user : Option (List Nat)) : RouteDecision :=
  match rules with
  | [] => .allow none
  | r :: rest =>
    if !r.enabled then evalLoop e rest target port sourceIp user
    else if matchesRule e r target port sourceIp user then applyAction e r.action
    else evalLoop e rest target port sourceIp user

/-- `RoutingRulesEngine::evaluate_rules` (lines 149-174). -/
def evaluateRules (e : RoutingRulesEngine) (target : TargetAddr) (port : Nat)
    (sourceIp : Ip) (user : Option (List Nat)) : RouteDecision :=
  evalLoop e e.rules target port sourceIp user

/-- The comparator of `RoutingRulesEngine::sort_rules_by_priority`:
`b.priority.cmp(&a.priority)` sorts by descending priority. -/
def ruleGE (a b : RoutingRule) : Prop := b.priority ≤ a.priority

instance : DecidableRel ruleGE := fun a b => Nat.decLe b.priority a.priority

instance : IsTotal RoutingRule ruleGE :=
  ⟨fun a b => Nat.le_total b.priority a.priority⟩

instance : IsTrans RoutingRule ruleGE :=
  ⟨fun _ _ _ hab hbc => Nat.le_trans hbc hab⟩

/-- `RoutingRulesEngine::sort_rules_by_priority` (lines 413-415):
`Vec::sort_by` is a stable sort, modelled as stable insertion sort on the
descending-priority order. -/
def sortRulesByPriority (rules : List RoutingRule) : List RoutingRule :=
  List.insertionSort ruleGE rules

theorem evalLoop_eq_find (e : RoutingRulesEngine) (target : TargetAddr)
    (port : Nat) (sourceIp : Ip) (user : Option (List Nat)) :
    ∀ rules : List RoutingRule,
      evalLoop e rules target port sourceIp user =
        (rules.find? (fun r => r.enabled &&
            matchesRule e r target port sourceIp user)).elim
          (RouteDecision.allow none) (fun r => applyAction e r.action)
  | [] => by simp [evalLoop, List.find?]
  | r :: rest => by
    by_cases hen : r.enabled
    · by_cases hm : matchesRule e r target port sourceIp user
      · simp [evalLoop, hen, hm, List.find?]
      · simp [evalLoop, hen, hm, List.find?,
          evalLoop_eq_find e target port sourceIp user rest]
    · simp [evalLoop, Bool.of_not_eq_true hen, List.find?,
        evalLoop_eq_find e target port sourceIp user rest]

theorem filter_orderedInsert (pr : Nat) (a : RoutingRule) :
    ∀ l : List RoutingRule,
      (List.orderedInsert ruleGE a l).filter (fun r => r.priority == pr) =
        if a.priority == pr then
          a :: l.filter (fun r => r.priority == pr)
        else l.filter (fun r => r.priority == pr)
  | [] => by
    by_cases h : a.priority = pr <;>
      simp [List.orderedInsert, List.filter_cons, beq_iff_eq, h]
  | b :: l => by
    by_cases hab : ruleGE a b
    · by_cases h : a.priority = pr <;>
        simp [List.orderedInsert, if_pos hab, List.filter_cons, beq_iff_eq, h]
    · have hlt : a.priority < b.priority := by
        simpa [ruleGE, Nat.not_le] using hab
      by_cases h : a.priority = pr
      · have hbne : (b.priority == pr) = false := by
          simp only [beq_eq_false_iff_ne, ne_eq]
          omega
        simp [List.orderedInsert, if_neg hab, List.filter_cons, hbne,
          beq_iff_eq, h, filter_orderedInsert pr a l]
      · by_cases hbp : b.priority = pr <;>
          simp [List.orderedInsert, if_neg hab, List.filter_cons,
            beq_iff_eq, h, hbp, filter_orderedInsert pr a l]

theorem filter_sortRulesByPriority (pr : Nat) :
    ∀ l : List RoutingRule,
      (sortRulesByPriority l).filter (fun r => r.priority == pr) =
        l.filter (fun r => r.priority == pr)
  | [] => rfl
  | a :: l => by
    have ih := filter_sortRulesByPriority pr l
    simp only [sortRulesByPriority, List.insertionSort] at ih ⊢
    rw [filter_orderedInsert pr a (List.insertionSort ruleGE l), ih]
    by_cases h : a.priority = pr <;>
      simp [List.filter_cons, beq_iff_eq, h]

/-- C3: rule evaluation returns the action of the first enabled, fully
matching rule in list order — later rules are never consulted — and
`Allow` with no upstream when no enabled rule matches; the maintained
rule order is sorted by descending priority, and rules of equal priority
keep their insertion order (stability, expressed as preservation of each
equal-priority subsequence). -/
theorem evaluateRules_spec (e : RoutingRulesEngine) (target : TargetAddr)
    (port : Nat) (sourceIp : Ip) (user : Option (List Nat)) :
    (evaluateRules e target port sourceIp user =
      (e.rules.find? (fun r => r.enabled &&
          matchesRule e r target port sourceIp user)).elim
        (RouteDecision.allow none) (fun r => applyAction e r.action)) ∧
    (∀ l : List RoutingRule,
      (sortRulesByPriority l).Perm l ∧
      (sortRulesByPriority l).Sorted (fun a b => b.priority ≤ a.priority) ∧
      ∀ pr : Nat,
        (sortRulesByPriority l).filter (fun r => r.priority == pr) =
          l.filter (fun r => r.priority == pr)) := by
  refine ⟨evalLoop_eq_find e target port sourceIp user e.rules, fun l => ?_⟩
  exact ⟨List.perm_insertionSort ruleGE l,
    List.sorted_insertionSort ruleGE l,
    fun pr => filter_sortRulesByPriority pr l⟩

/-! ## Fail2Ban brute-force detector (`src/security/fail2ban.rs`)

`Instant`s are modelled as second-counts (`Nat`), `Duration`s as seconds,
and the `f64` ban multiplier as `ℚ`. -/

/-- `Fail2BanConfig` from `src/security/fail2ban.rs`. -/
structure Fail2BanConfig where
  enabled : Bool
  maxAuthFailures : Nat
  failureWindowMinutes : Nat
  banDurationMinutes : Nat
  progressiveBanMultiplier : ℚ
  maxBanDurationHours : Nat
  enableProgressiveDelays : Bool
  baseDelayMs : Nat
  maxDelayMs : Nat
  whitelistIps : List Ip
  cleanupIntervalSeconds : Nat

/-- `Fail2BanConfig::default`: 5 failures in 10 minutes, 30-minute base
ban, multiplier 2, 24-hour cap; whitelist `127.0.0.1` and `::1`. -/
def defaultFail2BanConfig : Fail2BanConfig where
  enabled := true
  maxAuthFailures := 5
  failureWindowMinutes := 10
  banDurationMinutes := 30
  progressiveBanMultiplier := 2
  maxBanDurationHours := 24
  enableProgressiveDelays := true
  baseDelayMs := 1000
  maxDelayMs := 30000
  whitelistIps := [⟨false, 2130706433⟩, ⟨true, 1⟩]
  cleanupIntervalSeconds := 300

/-- `BruteForceDetector` from `src/security/fail2ban.rs`; the `VecDeque`
of failure instants is a list, oldest first. -/
structure BruteForceDetector where
  failureTimes : List Nat
  totalFailures : Nat
  totalSuccesses : Nat
  banCount : Nat
  bannedUntil : Option Nat
  lastActivity : Nat
  lastFailureTime : Option Nat

/-- Rust's saturating, truncating `f64 as u64` cast. -/
def ratToU64 (q : ℚ) : Nat :=
  if q ≤ 0 then 0 else min q.floor.toNat (2 ^ 64 - 1)

/-- The `while front < window_start { pop_front }` pruning loop of
`record_failure`. -/
def pruneWindow (windowStart : Nat) : List Nat → List Nat
  | [] => []
  | t :: rest =>
    if t < windowStart then pruneWindow windowStart rest else t :: rest

/-- The progressive ban length in seconds:
`(base_secs as f64 * multiplier.powi(ban_count - 1)) as u64`. -/
def banDurationSecs (config : Fail2BanConfig) (banCount : Nat) : Nat :=
  ratToU64 ((config.banDurationMinutes * 60 : ℚ) *
    config.progressiveBanMultiplier ^ (banCount - 1))

/-- The push/prune/threshold part of `BruteForceDetector::record_failure`
(after the active-ban early return). -/
def recordFailureCore (config : Fail2BanConfig) (now : Nat)
    (d : BruteForceDetector) : Bool × BruteForceDetector :=
  let times := pruneWindow (now - config.failureWindowMinutes * 60)
    (d.failureTimes ++ [now])
  if config.maxAuthFailures ≤ times.length then
    let banCount := d.banCount + 1
    let finalDuration := min (banDurationSecs config banCount)
      (config.maxBanDurationHours * 3600)
    (false, { d with failureTimes := times, banCount := banCount,
                     bannedUntil := some (now + finalDuration) })
  else
    (true, { d with failureTimes := times })

/-- `BruteForceDetector::record_failure` (lines 76-130): bump the
counters, return `false` during an active ban, clear an expired ban,
append the failure, prune the sliding window, and ban when the window
holds at least `max_auth_failures` entries. -/
def recordFailure (config : Fail2BanConfig) (now : Nat)
    (d : BruteForceDetector) : Bool × BruteForceDetector :=
  let d := { d with lastActivity := now, lastFailureTime := some now,
                    totalFailures := d.totalFailures + 1 }
  match d.bannedUntil with
  | some bannedUntil =>
    if now < bannedUntil then (false, d)
    else recordFailureCore config now { d with bannedUntil := none }
  | none => recordFailureCore config now d

/-- `BruteForceDetector::record_success`. -/
def bfRecordSuccess (now : Nat) (d : BruteForceDetector) : BruteForceDetector :=
  { d with lastActivity := now, totalSuccesses := d.totalSuccesses + 1,
           failureTimes := [], lastFailureTime := none }

/-- C4: when a failure is recorded while no ban is active and the pruned
sliding window (old failures plus this one) holds at least
`maxAuthFailures` entries, the IP becomes banned: the attempt is
rejected, the ban counter becomes `banCount + 1`, and the ban runs for
`baseBan * multiplier^(banCount' - 1)` seconds (truncated to `u64`)
capped at `maxBanDurationHours`; the defaults are 5 failures in 10
minutes and a 24-hour cap. -/
theorem recordFailure_bans (config : Fail2BanConfig) (now : Nat)
    (d : BruteForceDetector)
    (hban : ∀ bu, d.bannedUntil = some bu → bu ≤ now)
    (hthresh : config.maxAuthFailures ≤
      (pruneWindow (now - config.failureWindowMinutes * 60)
        (d.failureTimes ++ [now])).length) :
    (recordFailure config now d).1 = false ∧
    (recordFailure config now d).2.banCount = d.banCount + 1 ∧
    (recordFailure config now d).2.bannedUntil =
      some (now + min
        (ratToU64 ((config.banDurationMinutes * 60 : ℚ) *
          config.progressiveBanMultiplier ^ (d.banCount + 1 - 1)))
        (config.maxBanDurationHours * 3600)) ∧
    defaultFail2BanConfig.maxAuthFailures = 5 ∧
    defaultFail2BanConfig.failureWindowMinutes = 10 ∧
    defaultFail2BanConfig.maxBanDurationHours = 24 := by
  obtain ⟨ft, tf, ts, bc, bu, la, lf⟩ := d
  simp only at hban hthresh ⊢
  cases bu with
  | none =>
    refine ⟨?_, ?_, ?_, rfl, rfl, rfl⟩ <;>
      · simp only [recordFailure, recordFailureCore, banDurationSecs]
        rw [if_pos hthresh]
  | some b =>
    have hle : ¬ now < b := Nat.not_lt.mpr (hban b rfl)
    refine ⟨?_, ?_, ?_, rfl, rfl, rfl⟩ <;>
      · simp only [recordFailure, recordFailureCore, banDurationSecs]
        rw [if_neg hle, if_pos hthresh]

/-- C4 (witness): with the default configuration, a fifth failure within
the window bans the IP for 30 minutes (first ban: multiplier `2^0`). -/
theorem recordFailure_bans_witness :
    (recordFailure defaultFail2BanConfig 5
      ⟨[1, 2, 3, 4], 4, 0, 0, none, 4, some 4⟩).1 = false ∧
    (recordFailure defaultFail2BanConfig 5
      ⟨[1, 2, 3, 4], 4, 0, 0, none, 4, some 4⟩).2.banCount = 0 + 1 ∧
    (recordFailure defaultFail2BanConfig 5
      ⟨[1, 2, 3, 4], 4, 0, 0, none, 4, some 4⟩).2.bannedUntil =
      some (5 + min
        (ratToU64 ((defaultFail2BanConfig.banDurationMinutes * 60 : ℚ) *
          defaultFail2BanConfig.progressiveBanMultiplier ^ (0 + 1 - 1)))
        (defaultFail2BanConfig.maxBanDurationHours * 3600)) ∧
    defaultFail2BanConfig.maxAuthFailures = 5 ∧
    defaultFail2BanConfig.failureWindowMinutes = 10 ∧
    defaultFail2BanConfig.maxBanDurationHours = 24 :=
  recordFailure_bans defaultFail2BanConfig 5
    ⟨[1, 2, 3, 4], 4, 0, 0, none, 4, some 4⟩
    (fun bu h => nomatch h) (by decide)

/-! ## SOCKS5 request wire codec (`src/protocol/handler.rs`) -/

/-- `Socks5Request` from `src/protocol/types.rs`. -/
structure Socks5Request where
  version : Nat
  command : Nat
  reserved : Nat
  addressType : Nat
  targetAddr : TargetAddr
  targetPort : Nat
  deriving DecidableEq, Repr

/-- Is a byte a UTF-8 continuation byte (`0x80..=0xBF`)? -/
def utf8Cont (b : Nat) : Bool := 0x80 ≤ b && b ≤ 0xBF

/-- The UTF-8 validity check performed by `String::from_utf8`. -/
def utf8Valid (l : List Nat) : Bool :=
  match l with
  | [] => true
  | b :: rest =>
    if b ≤ 0x7F then utf8Valid rest
    else if 0xC2 ≤ b && b ≤ 0xDF then
      match rest with
      | c1 :: r => utf8Cont c1 && utf8Valid r
      | [] => false
    else if b = 0xE0 then
      match rest with
      | c1 :: c2 :: r =>
        (0xA0 ≤ c1 && c1 ≤ 0xBF) && utf8Cont c2 && utf8Valid r
      | _ => false
    else if ((0xE1 ≤ b && b ≤ 0xEC) || b = 0xEE || b = 0xEF) then
      match rest with
      | c1 :: c2 :: r => utf8Cont c1 && utf8Cont c2 && utf8Valid r
      | _ => false
    else if b = 0xED then
      match rest with
      | c1 :: c2 :: r =>
        (0x80 ≤ c1 && c1 ≤ 0x9F) && utf8Cont c2 && utf8Valid r
      | _ => false
    else if b = 0xF0 then
      match rest with
      | c1 :: c2 :: c3 :: r =>
        (0x90 ≤ c1 && c1 ≤ 0xBF) && utf8Cont c2 && utf8Cont c3 && utf8Valid r
      | _ => false
    else if (0xF1 ≤ b && b ≤ 0xF3) then
      match rest with
      | c1 :: c2 :: c3 :: r =>
        utf8Cont c1 && utf8Cont c2 && utf8Cont c3 && utf8Valid r
      | _ => false
    else if b = 0xF4 then
      match rest with
      | c1 :: c2 :: c3 :: r =>
        (0x80 ≤ c1 && c1 ≤ 0x8F) && utf8Cont c2 && utf8Cont c3 && utf8Valid r
      | _ => false
    else false

/-- `Socks5Handler::send_connect_request` (lines 351-385): VER CMD RSV
ATYP, the address bytes (length-prefixed for domains, rejecting domains
longer than 255), then the port in big-endian (`u16::to_be_bytes`). -/
def encodeConnectRequest (target : TargetAddr) (port : Nat) :
    Except String (List Nat) :=
  let header := [SOCKS5_VERSION, SOCKS5_CMD_CONNECT, SOCKS5_RESERVED,
    target.addressType]
  let portBytes := [port / 256 % 256, port % 256]
  match target with
  | .ipv4 octets => .ok (header ++ octets ++ portBytes)
  | .ipv6 octets => .ok (header ++ octets ++ portBytes)
  | .domain d =>
    if 255 < d.length then .error "Domain name too long"
    else .ok (header ++ (d.length :: d) ++ portBytes)

/-- The trailing big-endian port read of `read_request`
(`u16::from_be_bytes`). -/
def readPortAnd (version command reserved addressType : Nat)
    (addr : TargetAddr) (remaining : List Nat) :
    Except String (Socks5Request × List Nat) :=
  match remaining with
  | p1 :: p2 :: rest =>
    .ok (⟨version, command, reserved, addressType, addr, p1 * 256 + p2⟩, rest)
  | _ => .error "Failed to read port"

/-- `Socks5Handler::read_request` (lines 119-182): fixed four-byte header,
then the address according to ATYP (IPv4: 4 bytes; IPv6: 16 bytes;
domain: length byte, rejecting zero, then that many bytes which must be
valid UTF-8), then the two-byte big-endian port.  Unread input is
returned alongside the request. -/
def readRequest (bytes : List Nat) : Except String (Socks5Request × List Nat) :=
  match bytes with
  | version :: command :: reserved :: addressType :: rest =>
    if addressType = SOCKS5_ADDR_IPV4 then
      if rest.length < 4 then .error "Failed to read IPv4 address"
      else readPortAnd version command reserved addressType
        (.ipv4 (rest.take 4)) (rest.drop 4)
    else if addressType = SOCKS5_ADDR_IPV6 then
      if rest.length < 16 then .error "Failed to read IPv6 address"
      else readPortAnd version command reserved addressType
        (.ipv6 (rest.take 16)) (rest.drop 16)
    else if addressType = SOCKS5_ADDR_DOMAIN then
      match rest with
      | domainLen :: rest2 =>
        if domainLen = 0 then .error "Domain name length cannot be zero"
        else if rest2.length < domainLen then .error "Failed to read domain name"
        else if utf8Valid (rest2.take domainLen) then
          readPortAnd version command reserved addressType
            (.domain (rest2.take domainLen)) (rest2.drop domainLen)
        else .error "Invalid UTF-8 in domain name"
      | [] => .error "Failed to read domain length"
    else .error "Unsupported address type"
  | _ => .error "Failed to read request header"

/-- Well-formedness of a `TargetAddr` as guaranteed by the Rust types:
`Ipv4Addr` has four octets, `Ipv6Addr` sixteen, and a `String` domain is
valid UTF-8 (length bounds from the claim). -/
def targetWF : TargetAddr → Prop
  | .ipv4 octets => octets.length = 4
  | .ipv6 octets => octets.length = 16
  | .domain d => 1 ≤ d.length ∧ d.length ≤ 255 ∧ utf8Valid d = true

/-- C5: for every well-formed target address (IPv4, IPv6, or domain of
length 1-255) and every port, encoding the CONNECT request and decoding
the produced bytes succeeds and returns exactly the original address and
port, consuming all input. -/
theorem encode_decode_request_roundtrip (target : TargetAddr) (port : Nat)
    (hport : port < 65536) (hwf : targetWF target) :
    ∃ bytes req,
      encodeConnectRequest target port = .ok bytes ∧
      readRequest bytes = .ok (req, []) ∧
      req.targetAddr = target ∧ req.targetPort = port := by
  have hp : port / 256 % 256 * 256 + port % 256 = port := by omega
  cases target with
  | ipv4 octets =>
    have hlen : octets.length = 4 := hwf
    refine ⟨_, ⟨5, 1, 0, 1, .ipv4 octets, port⟩, rfl, ?_, rfl, rfl⟩
    simp only [readRequest, TargetAddr.addressType, List.cons_append,
      List.nil_append, if_true]
    rw [if_neg (show ¬ (octets ++ [port / 256 % 256, port % 256]).length < 4 by
        simp [hlen]),
      List.take_left' hlen, List.drop_left' hlen]
    simp [readPortAnd, hp, SOCKS5_VERSION, SOCKS5_CMD_CONNECT,
      SOCKS5_RESERVED, SOCKS5_ADDR_IPV4]
  | ipv6 octets =>
    have hlen : octets.length = 16 := hwf
    refine ⟨_, ⟨5, 1, 0, 4, .ipv6 octets, port⟩, rfl, ?_, rfl, rfl⟩
    simp only [readRequest, TargetAddr.addressType, List.cons_append,
      List.nil_append, if_true]
    rw [if_neg (show ¬ (octets ++ [port / 256 % 256, port % 256]).length < 16 by
        simp [hlen]),
      List.take_left' hlen, List.drop_left' hlen]
    simp [readPortAnd, hp, SOCKS5_VERSION, SOCKS5_CMD_CONNECT,
      SOCKS5_RESERVED, SOCKS5_ADDR_IPV4, SOCKS5_ADDR_IPV6]
  | domain d =>
    obtain ⟨hlo, hhi, hvalid⟩ := hwf
    refine ⟨[SOCKS5_VERSION, SOCKS5_CMD_CONNECT, SOCKS5_RESERVED,
        SOCKS5_ADDR_DOMAIN] ++ (d.length :: d) ++
        [port / 256 % 256, port % 256],
      ⟨5, 1, 0, 3, .domain d, port⟩, ?_, ?_, rfl, rfl⟩
    · simp only [encodeConnectRequest, TargetAddr.addressType]
      rw [if_neg (by omega)]
    · simp only [readRequest, TargetAddr.addressType, List.cons_append,
        List.nil_append, if_true]
      rw [if_neg (show ¬ d.length = 0 by omega),
        if_neg (show ¬ (d ++ [port / 256 % 256, port % 256]).length < d.length by
          simp),
        List.take_left' rfl, List.drop_left' rfl, if_pos hvalid]
      simp [readPortAnd, hp, SOCKS5_VERSION, SOCKS5_CMD_CONNECT,
        SOCKS5_RESERVED, SOCKS5_ADDR_IPV4, SOCKS5_ADDR_IPV6,
        SOCKS5_ADDR_DOMAIN]

/-- C5 (witness): the one-byte domain `a` with port 443 round-trips. -/
theorem encode_decode_request_roundtrip_witness :
    443 < 65536 ∧ targetWF (.domain [97]) ∧
    ∃ bytes req,
      encodeConnectRequest (.domain [97]) 443 = .ok bytes ∧
      readRequest bytes = .ok (req, []) ∧
      req.targetAddr = .domain [97] ∧ req.targetPort = 443 :=
  ⟨by decide, by unfold targetWF; decide,
    encode_decode_request_roundtrip (.domain [97]) 443 (by decide)
      (by unfold targetWF; decide)⟩

/-! ## Token bucket (`src/security/rate_limiter.rs`, lines 50-97)

`f64` token counts and `Instant`s are modelled as `ℚ` (elapsed time in
seconds via `duration_since`, which yields zero when the clock did not
advance). -/

/-- `TokenBucket` from `src/security/rate_limiter.rs`. -/
structure TokenBucket where
  capacity : Nat
  tokens : ℚ
  refillRate : ℚ
  lastRefill : ℚ

/-- `TokenBucket::new`: starts full; the per-minute rate becomes a
per-second rate. -/
def TokenBucket.new (capacity : Nat) (refillRatePerMinute : Nat)
    (now : ℚ) : TokenBucket where
  capacity := capacity
  tokens := capacity
  refillRate := (refillRatePerMinute : ℚ) / 60
  lastRefill := now

/-- `TokenBucket::refill`: add `elapsed * refill_rate` tokens, clamped to
the capacity; `Instant::duration_since` saturates at zero. -/
def TokenBucket.refill (now : ℚ) (b : TokenBucket) : TokenBucket :=
  let elapsed := max (now - b.lastRefill) 0
  if 0 < elapsed then
    { b with tokens := min (b.tokens + elapsed * b.refillRate) b.capacity,
             lastRefill := now }
  else b

/-- `TokenBucket::try_consume`: refill first, then subtract `n` tokens if
at least `n` are present. -/
def TokenBucket.tryConsume (now : ℚ) (n : Nat) (b : TokenBucket) :
    Bool × TokenBucket :=
  let b := b.refill now
  if (n : ℚ) ≤ b.tokens then (true, { b with tokens := b.tokens - n })
  else (false, b)

/-- Fold a sequence of `(now, n)` consumption attempts over a bucket. -/
def TokenBucket.runOps (b : TokenBucket) : List (ℚ × Nat) → TokenBucket
  | [] => b
  | (now, n) :: ops => ((b.tryConsume now n).2).runOps ops

/-- 0 ≤ tokens ≤ capacity is preserved by `refill`. -/
theorem TokenBucket.refill_bounds (b : TokenBucket) (now : ℚ)
    (hrate : 0 ≤ b.refillRate) (h0 : 0 ≤ b.tokens)
    (hcap : b.tokens ≤ b.capacity) :
    0 ≤ (b.refill now).tokens ∧ (b.refill now).tokens ≤ b.capacity := by
  unfold TokenBucket.refill
  by_cases h : 0 < max (now - b.lastRefill) 0
  · simp only [if_pos h]
    constructor
    · have hel : 0 ≤ max (now - b.lastRefill) 0 := le_max_right _ _
      have : 0 ≤ max (now - b.lastRefill) 0 * b.refillRate :=
        mul_nonneg hel hrate
      exact le_min (by linarith) (by positivity)
    · exact min_le_right _ _
  · simp only [if_neg h]
    exact ⟨h0, hcap⟩

/-- 0 ≤ tokens ≤ capacity is preserved by `try_consume`. -/
theorem TokenBucket.tryConsume_bounds (b : TokenBucket) (now : ℚ) (n : Nat)
    (hrate : 0 ≤ b.refillRate) (h0 : 0 ≤ b.tokens)
    (hcap : b.tokens ≤ b.capacity) :
    0 ≤ (b.tryConsume now n).2.tokens ∧
      (b.tryConsume now n).2.tokens ≤ b.capacity := by
  obtain ⟨hr0, hrcap⟩ := b.refill_bounds now hrate h0 hcap
  unfold TokenBucket.tryConsume
  by_cases h : (n : ℚ) ≤ (b.refill now).tokens
  · simp only [if_pos h]
    have hn : (0 : ℚ) ≤ n := Nat.cast_nonneg n
    exact ⟨by linarith, by linarith⟩
  · simp only [if_neg h]
    exact ⟨hr0, hrcap⟩

theorem TokenBucket.refill_preserves_static (b : TokenBucket) (now : ℚ) :
    (b.refill now).capacity = b.capacity ∧
      (b.refill now).refillRate = b.refillRate := by
  unfold TokenBucket.refill
  by_cases h : 0 < max (now - b.lastRefill) 0 <;> simp [h]

theorem TokenBucket.tryConsume_preserves_static (b : TokenBucket) (now : ℚ)
    (n : Nat) :
    (b.tryConsume now n).2.capacity = b.capacity ∧
      (b.tryConsume now n).2.refillRate = b.refillRate := by
  obtain ⟨hc, hr⟩ := b.refill_preserves_static now
  unfold TokenBucket.tryConsume
  by_cases h : (n : ℚ) ≤ (b.refill now).tokens <;> simp [h, hc, hr]

theorem TokenBucket.runOps_bounds (ops : List (ℚ × Nat)) :
    ∀ b : TokenBucket, 0 ≤ b.refillRate → 0 ≤ b.tokens →
      b.tokens ≤ b.capacity →
      0 ≤ (b.runOps ops).tokens ∧
        (b.runOps ops).tokens ≤ (b.runOps ops).capacity := by
  induction ops with
  | nil => intro b _ h0 hcap; exact ⟨h0, hcap⟩
  | cons op ops ih =>
    intro b hrate h0 hcap
    obtain ⟨now, n⟩ := op
    have hb := b.tryConsume_bounds now n hrate h0 hcap
    have hs := b.tryConsume_preserves_static now n
    simpa [TokenBucket.runOps, hs.1] using
      ih (b.tryConsume now n).2 (hs.2 ▸ hrate) hb.1 (hs.1 ▸ hb.2)

/-- C6: starting from a fresh bucket, any sequence of consumption
attempts keeps the token count within [0, capacity]; `try_consume` first
refills `elapsed * rate` tokens clamped to the capacity, then a
successful `try_consume(n)` requires at least `n` refilled tokens and
subtracts exactly `n`, a failed one leaves the refilled count unchanged;
and the number of tokens a refill adds is monotone non-decreasing in the
elapsed time. -/
theorem tokenBucket_spec (capacity refillRatePerMinute : Nat) (start : ℚ)
    (ops : List (ℚ × Nat)) (b : TokenBucket) (now t₁ t₂ : ℚ) (n : Nat) :
    (0 ≤ ((TokenBucket.new capacity refillRatePerMinute start).runOps ops).tokens ∧
     ((TokenBucket.new capacity refillRatePerMinute start).runOps ops).tokens ≤
       ((TokenBucket.new capacity refillRatePerMinute start).runOps ops).capacity) ∧
    ((b.tryConsume now n).1 = true ↔ (n : ℚ) ≤ (b.refill now).tokens) ∧
    ((n : ℚ) ≤ (b.refill now).tokens →
      (b.tryConsume now n).2.tokens = (b.refill now).tokens - n) ∧
    (¬ (n : ℚ) ≤ (b.refill now).tokens →
      (b.tryConsume now n).2.tokens = (b.refill now).tokens) ∧
    (0 ≤ b.refillRate → b.lastRefill ≤ t₁ → t₁ ≤ t₂ →
      b.tokens ≤ b.capacity →
      (b.refill t₁).tokens - b.tokens ≤ (b.refill t₂).tokens - b.tokens) := by
  refine ⟨?_, ?_, ?_, ?_, ?_⟩
  · apply TokenBucket.runOps_bounds
    · exact div_nonneg (Nat.cast_nonneg _) (by norm_num)
    · exact Nat.cast_nonneg _
    · exact le_refl _
  · unfold TokenBucket.tryConsume
    by_cases h : (n : ℚ) ≤ (b.refill now).tokens <;> simp [h]
  · intro h
    unfold TokenBucket.tryConsume
    simp [h]
  · intro h
    unfold TokenBucket.tryConsume
    simp [h]
  · intro hrate h₁ h₂ hcap
    have hle : ∀ t : ℚ, b.lastRefill ≤ t →
        (b.refill t).tokens =
          min (b.tokens + (t - b.lastRefill) * b.refillRate) b.capacity := by
      intro t ht
      unfold TokenBucket.refill
      rcases lt_or_eq_of_le (sub_nonneg.mpr ht) with h | h
      · rw [max_eq_left (le_of_lt h)]
        simp only [if_pos h]
      · rw [max_eq_left (le_of_eq h), if_neg (by rw [← h]; exact lt_irrefl 0),
          ← h]
        simp [min_eq_left hcap]
    rw [hle t₁ h₁, hle t₂ (le_trans h₁ h₂)]
    have hmono : (t₁ - b.lastRefill) * b.refillRate ≤
        (t₂ - b.lastRefill) * b.refillRate :=
      mul_le_mul_of_nonneg_right (by linarith) hrate
    exact sub_le_sub_right
      (min_le_min (add_le_add_left hmono b.tokens) (le_refl _)) _

/-- C6 (witness): a fresh bucket of capacity 10 at rate 60/min, one
successful consumption of 3, stays within bounds; consuming 3 from a full
bucket succeeds. -/
theorem tokenBucket_spec_witness :
    (0 ≤ ((TokenBucket.new 10 60 0).runOps [(1, 3)]).tokens ∧
     ((TokenBucket.new 10 60 0).runOps [(1, 3)]).tokens ≤
       ((TokenBucket.new 10 60 0).runOps [(1, 3)]).capacity) ∧
    (((TokenBucket.new 10 60 0).tryConsume 1 3).1 = true ↔
      (3 : ℚ) ≤ ((TokenBucket.new 10 60 0).refill 1).tokens) ∧
    ((3 : ℚ) ≤ ((TokenBucket.new 10 60 0).refill 1).tokens →
      ((TokenBucket.new 10 60 0).tryConsume 1 3).2.tokens =
        ((TokenBucket.new 10 60 0).refill 1).tokens - 3) ∧
    (¬ (3 : ℚ) ≤ ((TokenBucket.new 10 60 0).refill 1).tokens →
      ((TokenBucket.new 10 60 0).tryConsume 1 3).2.tokens =
        ((TokenBucket.new 10 60 0).refill 1).tokens) ∧
    (0 ≤ (TokenBucket.new 10 60 0).refillRate →
      (TokenBucket.new 10 60 0).lastRefill ≤ 1 → (1 : ℚ) ≤ 2 →
      (TokenBucket.new 10 60 0).tokens ≤ (TokenBucket.new 10 60 0).capacity →
      ((TokenBucket.new 10 60 0).refill 1).tokens -
          (TokenBucket.new 10 60 0).tokens ≤
        ((TokenBucket.new 10 60 0).refill 2).tokens -
          (TokenBucket.new 10 60 0).tokens) :=
  tokenBucket_spec 10 60 0 [(1, 3)] (TokenBucket.new 10 60 0) 1 1 2 3

/-! ## Smart-routing proxy metrics (`src/routing/smart.rs`)

`Duration`s are modelled in nanoseconds (`Nat`); the `f64` success rate
as `ℚ`. -/

/-- `HealthStatus` from `src/routing/smart.rs`. -/
inductive HealthStatus where
  | healthy
  | degraded
  | unhealthy
  | unknown
  deriving DecidableEq, Repr

/-- `ProxyMetrics` from `src/routing/smart.rs`. -/
structure ProxyMetrics where
  avgLatency : Nat
  successRate : ℚ
  connectionCount : Nat
  lastHealthCheck : Nat
  healthStatus : HealthStatus
  recentLatencies : List Nat
  recentResults : List Bool

/-- `ProxyMetrics::new`. -/
def ProxyMetrics.new (now : Nat) : ProxyMetrics where
  avgLatency := 0
  successRate := 1
  connectionCount := 0
  lastHealthCheck := now
  healthStatus := .unknown
  recentLatencies := []
  recentResults := []

/-- `Duration::from_millis(5000)` in nanoseconds. -/
def HIGH_LATENCY_NANOS : Nat := 5000000000

/-- The `push` + `if len > MAX_MEASUREMENTS { remove(0) }` idiom of
`record_latency` (`MAX_MEASUREMENTS = 10`). -/
def pushCapped {α : Type} (l : List α) (x : α) : List α :=
  let l := l ++ [x]
  if 10 < l.length then l.drop 1 else l

/-- `ProxyMetrics::update_health_status`: no samples → `Unknown`;
success rate below 0.5 → `Unhealthy`; success rate below 0.8 or average
latency above 5 s → `Degraded`; otherwise `Healthy`. -/
def updateHealthStatus (m : ProxyMetrics) : ProxyMetrics :=
  if m.recentResults.isEmpty then { m with healthStatus := .unknown }
  else if m.successRate < 1/2 then { m with healthStatus := .unhealthy }
  else if m.successRate < 4/5 ∨ HIGH_LATENCY_NANOS < m.avgLatency then
    { m with healthStatus := .degraded }
  else { m with healthStatus := .healthy }

/-- `ProxyMetrics::record_latency` (lines 61-112): append to both rolling
windows (bounded to 10), recompute the average latency (`Duration`
division truncates) and the success rate, bump the connection count, and
refresh the health status. -/
def recordLatency (latency : Nat) (success : Bool) (m : ProxyMetrics) :
    ProxyMetrics :=
  let recentLatencies := pushCapped m.recentLatencies latency
  let recentResults := pushCapped m.recentResults success
  let avgLatency :=
    if recentLatencies.isEmpty then m.avgLatency
    else recentLatencies.sum / recentLatencies.length
  let successRate :=
    if recentResults.isEmpty then m.successRate
    else (recentResults.count true : ℚ) / recentResults.length
  updateHealthStatus
    { m with recentLatencies := recentLatencies,
             recentResults := recentResults,
             avgLatency := avgLatency,
             successRate := successRate,
             connectionCount := m.connectionCount + 1 }

/-- The health classification exactly as the claim words it: `Unknown`
with no samples, `Unhealthy` when the success rate is < 0.5, `Healthy`
when the success rate is ≥ 0.8 and the average latency ≤ 5 s, `Degraded`
otherwise. -/
def claimHealth (hasSamples : Bool) (rate : ℚ) (avg : Nat) : HealthStatus :=
  if !hasSamples then .unknown
  else if rate < 1/2 then .unhealthy
  else if 4/5 ≤ rate ∧ avg ≤ HIGH_LATENCY_NANOS then .healthy
  else .degraded

theorem pushCapped_eq {α : Type} (l : List α) (x : α) (h : l.length ≤ 10) :
    pushCapped l x = (if l.length < 10 then l else l.drop 1) ++ [x] := by
  unfold pushCapped
  by_cases hlt : l.length < 10
  · rw [if_neg (by simp; omega), if_pos hlt]
  · have h10 : l.length = 10 := by omega
    rw [if_pos (by simp; omega), if_neg hlt,
      List.drop_append_of_le_length (by omega)]

theorem pushCapped_length {α : Type} (l : List α) (x : α)
    (h : l.length ≤ 10) : (pushCapped l x).length ≤ 10 := by
  rw [pushCapped_eq l x h]
  by_cases hlt : l.length < 10 <;>
    simp [hlt, List.length_drop] <;> omega

theorem pushCapped_ne_nil {α : Type} (l : List α) (x : α)
    (h : l.length ≤ 10) : pushCapped l x ≠ [] := by
  rw [pushCapped_eq l x h]
  simp

/-- C7: `record_latency` bounds both rolling windows to 10 samples
(evicting the oldest), recomputes the average latency and success rate
over the retained samples, and sets the health status to: `Unknown` with
no samples, `Unhealthy` when the success rate is < 0.5, `Healthy` when
the success rate is ≥ 0.8 and the average latency is ≤ 5 s, `Degraded`
otherwise. -/
theorem recordLatency_spec (m : ProxyMetrics) (latency : Nat) (success : Bool)
    (hlat : m.recentLatencies.length ≤ 10)
    (hres : m.recentResults.length ≤ 10) :
    (recordLatency latency success m).recentLatencies.length ≤ 10 ∧
    (recordLatency latency success m).recentResults.length ≤ 10 ∧
    (recordLatency latency success m).recentLatencies =
      (if m.recentLatencies.length < 10 then m.recentLatencies
       else m.recentLatencies.drop 1) ++ [latency] ∧
    (recordLatency latency success m).recentResults =
      (if m.recentResults.length < 10 then m.recentResults
       else m.recentResults.drop 1) ++ [success] ∧
    (recordLatency latency success m).avgLatency =
      (recordLatency latency success m).recentLatencies.sum /
        (recordLatency latency success m).recentLatencies.length ∧
    (recordLatency latency success m).successRate =
      ((recordLatency latency success m).recentResults.count true : ℚ) /
        (recordLatency latency success m).recentResults.length ∧
    (recordLatency latency success m).healthStatus =
      claimHealth (!(recordLatency latency success m).recentResults.isEmpty)
        (recordLatency latency success m).successRate
        (recordLatency latency success m).avgLatency := by
  have hl := pushCapped_eq m.recentLatencies latency hlat
  have hr := pushCapped_eq m.recentResults success hres
  have hlen₁ := pushCapped_length m.recentLatencies latency hlat
  have hlen₂ := pushCapped_length m.recentResults success hres
  have hne₁ := pushCapped_ne_nil m.recentLatencies latency hlat
  have hne₂ := pushCapped_ne_nil m.recentResults success hres
  have hempty₁ : (pushCapped m.recentLatencies latency).isEmpty = false := by
    simpa [List.isEmpty_iff] using hne₁
  have hempty₂ : (pushCapped m.recentResults success).isEmpty = false := by
    simpa [List.isEmpty_iff] using hne₂
  have hrl :
      (recordLatency latency success m).recentLatencies =
        pushCapped m.recentLatencies latency ∧
      (recordLatency latency success m).recentResults =
        pushCapped m.recentResults success ∧
      (recordLatency latency success m).avgLatency =
        (pushCapped m.recentLatencies latency).sum /
          (pushCapped m.recentLatencies latency).length ∧
      (recordLatency latency success m).successRate =
        ((pushCapped m.recentResults success).count true : ℚ) /
          (pushCapped m.recentResults success).length := by
    unfold recordLatency updateHealthStatus
    simp only [hempty₁, hempty₂, Bool.false_eq_true, if_false]
    split
    · exact ⟨rfl, rfl, rfl, rfl⟩
    · split
      · exact ⟨rfl, rfl, rfl, rfl⟩
      · exact ⟨rfl, rfl, rfl, rfl⟩
  obtain ⟨e₁, e₂, e₃, e₄⟩ := hrl
  refine ⟨by rw [e₁]; exact hlen₁, by rw [e₂]; exact hlen₂,
    by rw [e₁, hl], by rw [e₂, hr],
    by rw [e₃, e₁], by rw [e₄, e₂], ?_⟩
  rw [e₂, e₃, e₄]
  unfold recordLatency updateHealthStatus claimHealth
  simp only [hempty₁, hempty₂, Bool.false_eq_true, if_false, Bool.not_false,
    Bool.not_true, if_true, apply_ite ProxyMetrics.healthStatus]
  by_cases hc₁ : ((pushCapped m.recentResults success).count true : ℚ) /
      (pushCapped m.recentResults success).length < 1/2
  · simp only [if_pos hc₁]
  · simp only [if_neg hc₁]
    by_cases hc₂ : ((pushCapped m.recentResults success).count true : ℚ) /
        (pushCapped m.recentResults success).length < 4/5 ∨
        HIGH_LATENCY_NANOS < (pushCapped m.recentLatencies latency).sum /
          (pushCapped m.recentLatencies latency).length
    · have hnot : ¬ (4/5 ≤ ((pushCapped m.recentResults success).count true : ℚ) /
          (pushCapped m.recentResults success).length ∧
          (pushCapped m.recentLatencies latency).sum /
            (pushCapped m.recentLatencies latency).length ≤
            HIGH_LATENCY_NANOS) := by
        rcases hc₂ with h | h
        · exact fun hx => absurd hx.1 (not_le.mpr h)
        · exact fun hx => absurd hx.2 (not_le.mpr h)
      simp only [if_pos hc₂, if_neg hnot]
    · have hyes : 4/5 ≤ ((pushCapped m.recentResults success).count true : ℚ) /
          (pushCapped m.recentResults success).length ∧
          (pushCapped m.recentLatencies latency).sum /
            (pushCapped m.recentLatencies latency).length ≤
            HIGH_LATENCY_NANOS := by
        push_neg at hc₂
        exact hc₂
      simp only [if_neg hc₂, if_pos hyes]

/-- C7 (witness): recording one successful 1 ms sample on fresh metrics
yields a single-sample window, success rate 1 and `Healthy` status. -/
theorem recordLatency_spec_witness :
    (recordLatency 1000000 true (ProxyMetrics.new 0)).recentLatencies.length ≤ 10 ∧
    (recordLatency 1000000 true (ProxyMetrics.new 0)).recentResults.length ≤ 10 ∧
    (recordLatency 1000000 true (ProxyMetrics.new 0)).recentLatencies =
      (if (ProxyMetrics.new 0).recentLatencies.length < 10 then
        (ProxyMetrics.new 0).recentLatencies
       else (ProxyMetrics.new 0).recentLatencies.drop 1) ++ [1000000] ∧
    (recordLatency 1000000 true (ProxyMetrics.new 0)).recentResults =
      (if (ProxyMetrics.new 0).recentResults.length < 10 then
        (ProxyMetrics.new 0).recentResults
       else (ProxyMetrics.new 0).recentResults.drop 1) ++ [true] ∧
    (recordLatency 1000000 true (ProxyMetrics.new 0)).avgLatency =
      (recordLatency 1000000 true (ProxyMetrics.new 0)).recentLatencies.sum /
        (recordLatency 1000000 true (ProxyMetrics.new 0)).recentLatencies.length ∧
    (recordLatency 1000000 true (ProxyMetrics.new 0)).successRate =
      ((recordLatency 1000000 true (ProxyMetrics.new 0)).recentResults.count true : ℚ) /
        (recordLatency 1000000 true (ProxyMetrics.new 0)).recentResults.length ∧
    (recordLatency 1000000 true (ProxyMetrics.new 0)).healthStatus =
      claimHealth
        (!(recordLatency 1000000 true (ProxyMetrics.new 0)).recentResults.isEmpty)
        (recordLatency 1000000 true (ProxyMetrics.new 0)).successRate
        (recordLatency 1000000 true (ProxyMetrics.new 0)).avgLatency :=
  recordLatency_spec (ProxyMetrics.new 0) 1000000 true (by decide) (by decide)

/-! ## Authentication rate limiting (`src/auth/types.rs`) -/

/-- `RateLimitInfo` from `src/auth/types.rs` (instants in seconds). -/
structure RateLimitInfo where
  attempts : Nat
  lastAttempt : Nat
  blockedUntil : Option Nat
  deriving DecidableEq, Repr

/-- `RateLimitInfo::new`. -/
def RateLimitInfo.new (now : Nat) : RateLimitInfo where
  attempts := 0
  lastAttempt := now
  blockedUntil := none

/-- The progressive-delay table of `RateLimitInfo::record_failure`
(`match self.attempts { 1..=3 => 1s, 4..=6 => 5s, 7..=10 => 30s,
_ => 300s }`), in seconds. -/
def progressiveDelay (attempts : Nat) : Nat :=
  if 1 ≤ attempts ∧ attempts ≤ 3 then 1
  else if 4 ≤ attempts ∧ attempts ≤ 6 then 5
  else if 7 ≤ attempts ∧ attempts ≤ 10 then 30
  else 300

/-- `RateLimitInfo::record_failure` (lines 107-126): bump the attempt
count, stamp the attempt, and install a block of the progressive delay. -/
def RateLimitInfo.recordFailure (now : Nat) (r : RateLimitInfo) :
    RateLimitInfo :=
  let attempts := r.attempts + 1
  { attempts := attempts, lastAttempt := now,
    blockedUntil := some (now + progressiveDelay attempts) }

/-- `RateLimitInfo::reset` (successful authentication). -/
def RateLimitInfo.reset (r : RateLimitInfo) : RateLimitInfo :=
  { r with attempts := 0, blockedUntil := none }

/-- `RateLimitInfo::is_blocked`. -/
def RateLimitInfo.isBlocked (now : Nat) (r : RateLimitInfo) : Bool :=
  match r.blockedUntil with
  | some blockedUntil => now < blockedUntil
  | none => false

/-- A run of consecutive failures at the given instants. -/
def recordFailures (times : List Nat) (r : RateLimitInfo) : RateLimitInfo :=
  times.foldl (fun acc t => acc.recordFailure t) r

theorem recordFailures_attempts (times : List Nat) :
    ∀ r : RateLimitInfo,
      (recordFailures times r).attempts = r.attempts + times.length := by
  induction times with
  | nil => intro r; simp [recordFailures]
  | cons t ts ih =>
    intro r
    have := ih (r.recordFailure t)
    simp only [recordFailures, List.foldl_cons] at this ⊢
    rw [this]
    simp [RateLimitInfo.recordFailure]
    omega

/-- C8: recording the k-th consecutive failure (k = attempts after the
increment) installs a block lasting 1 s for k ≤ 3, 5 s for k in 4..6,
30 s for k in 7..10, and 300 s for k ≥ 11; after k consecutive failures
from a reset record the attempt count is k; and a successful
authentication resets the count to zero and clears the block. -/
theorem rateLimit_progressive_spec :
    (∀ (r : RateLimitInfo) (now : Nat),
      (r.recordFailure now).attempts = r.attempts + 1 ∧
      (r.recordFailure now).blockedUntil = some (now +
        (if r.attempts + 1 ≤ 3 then 1
         else if r.attempts + 1 ≤ 6 then 5
         else if r.attempts + 1 ≤ 10 then 30
         else 300))) ∧
    (∀ (r : RateLimitInfo) (times : List Nat),
      (recordFailures times r.reset).attempts = times.length) ∧
    (∀ r : RateLimitInfo,
      r.reset.attempts = 0 ∧ r.reset.blockedUntil = none ∧
      ∀ now : Nat, r.reset.isBlocked now = false) := by
  refine ⟨fun r now => ⟨rfl, ?_⟩, fun r times => ?_, fun r => ⟨rfl, rfl, fun _ => rfl⟩⟩
  · unfold RateLimitInfo.recordFailure progressiveDelay
    simp only
    congr 1
    by_cases h₁ : r.attempts + 1 ≤ 3
    · rw [if_pos ⟨by omega, h₁⟩, if_pos h₁]
    · rw [if_neg (by omega), if_neg h₁]
      by_cases h₂ : r.attempts + 1 ≤ 6
      · rw [if_pos ⟨by omega, h₂⟩, if_pos h₂]
      · rw [if_neg (by omega), if_neg h₂]
        by_cases h₃ : r.attempts + 1 ≤ 10
        · rw [if_pos ⟨by omega, h₃⟩, if_pos h₃]
        · rw [if_neg (by omega), if_neg h₃]
  · rw [recordFailures_attempts]
    simp [RateLimitInfo.reset]

/-! ## Authentication manager (`src/auth/manager.rs`)

`HashMap`s become association lists; `Uuid::new_v4` session ids are
modelled by a fresh counter (only their value as a returned string
matters here, and failures return `String::new()` = the empty byte
string).  `DefaultHasher` is modelled as an identity encoding: the store
keeps `hash_password(p)` and `verify_password` compares hashes, so only
equality of hashes is observable.  The session-tracker bookkeeping of
`create_session` is not modelled beyond the returned id. -/

/-- Generic association-list lookup (`HashMap::get`). -/
def mapLookup {κ β : Type} [BEq κ] (k : κ) (l : List (κ × β)) : Option β :=
  (l.find? (fun p => p.1 == k)).map Prod.snd

/-- `HashMap::entry(k).or_insert_with(dflt)` followed by mutating with
`f`. -/
def mapUpdate {κ β : Type} [BEq κ] (k : κ) (dflt : β) (f : β → β) :
    List (κ × β) → List (κ × β)
  | [] => [(k, f dflt)]
  | (k', v) :: rest =>
    if k' == k then (k', f v) :: rest else (k', v) :: mapUpdate k dflt f rest

/-- `HashMap::get_mut(k)` followed by mutating with `f` (no insertion). -/
def mapAdjust {κ β : Type} [BEq κ] (k : κ) (f : β → β) :
    List (κ × β) → List (κ × β)
  | [] => []
  | (k', v) :: rest =>
    if k' == k then (k', f v) :: rest else (k', v) :: mapAdjust k f rest

/-- `AuthResult` from `src/auth/types.rs`. -/
structure AuthResult where
  success : Bool
  userId : Option (List Nat)
  sessionId : List Nat
  deriving DecidableEq, Repr

/-- `User::hash_password` — `DefaultHasher` modelled as an identity
encoding (only hash equality is observable). -/
def hashPassword (password : List Nat) : List Nat := password

/-- The `AuthManager` state: the global auth switch, the user store
(username → stored password hash and enabled flag), and the per-IP and
per-user rate limits. -/
structure AuthManagerState where
  authEnabled : Bool
  users : List (List Nat × (List Nat × Bool))
  ipRateLimits : List (Ip × RateLimitInfo)
  userRateLimits : List (List Nat × RateLimitInfo)
  sessionCounter : Nat

/-- Bytes of `"anonymous"`. -/
def anonymousBytes : List Nat := "anonymous".toList.map Char.toNat

/-- `AuthManager::create_session`: the fresh session id returned (the
`Uuid` modelled by the session counter). -/
def createSessionId (st : AuthManagerState) : List Nat :=
  natDecimalBytes st.sessionCounter

/-- The state change of `create_session` (a new session is tracked). -/
def bumpSession (st : AuthManagerState) : AuthManagerState :=
  { st with sessionCounter := st.sessionCounter + 1 }

/-- `AuthManager::is_rate_limited`. -/
def isRateLimited (st : AuthManagerState) (clientIp : Ip) (now : Nat) : Bool :=
  match mapLookup clientIp st.ipRateLimits with
  | some r => r.isBlocked now
  | none => false

/-- `AuthManager::is_user_rate_limited`. -/
def isUserRateLimited (st : AuthManagerState) (username : List Nat)
    (now : Nat) : Bool :=
  match mapLookup username st.userRateLimits with
  | some r => r.isBlocked now
  | none => false

/-- `AuthManager::record_auth_failure`. -/
def recordIpAuthFailure (st : AuthManagerState) (clientIp : Ip) (now : Nat) :
    AuthManagerState :=
  let updated := mapUpdate clientIp (RateLimitInfo.new now)
    (fun r => r.recordFailure now) st.ipRateLimits
  { st with ipRateLimits := updated }

/-- `AuthManager::record_user_auth_failure`. -/
def recordUserAuthFailure (st : AuthManagerState) (username : List Nat)
    (now : Nat) : AuthManagerState :=
  let updated := mapUpdate username (RateLimitInfo.new now)
    (fun r => r.recordFailure now) st.userRateLimits
  { st with userRateLimits := updated }

/-- `AuthManager::reset_rate_limit`. -/
def resetIpRateLimit (st : AuthManagerState) (clientIp : Ip) :
    AuthManagerState :=
  let updated := mapAdjust clientIp RateLimitInfo.reset st.ipRateLimits
  { st with ipRateLimits := updated }

/-- `AuthManager::reset_user_rate_limit`. -/
def resetUserRateLimit (st : AuthManagerState) (username : List Nat) :
    AuthManagerState :=
  let updated := mapAdjust username RateLimitInfo.reset st.userRateLimits
  { st with userRateLimits := updated }

/-- `UserStore::validate_credentials`: user exists, is enabled, and the
stored hash matches the hash of the supplied password. -/
def validateUser (st : AuthManagerState) (username password : List Nat) :
    Bool :=
  match mapLookup username st.users with
  | some (passwordHash, enabled) =>
    enabled && passwordHash == hashPassword password
  | none => false

/-- `AuthManager::parse_userpass_credentials` (lines 137-169): RFC 1929
frame `VER ULEN UNAME PLEN PASSWD`; `None` on a short frame, a
sub-negotiation version other than 0x01, or truncated fields. -/
def parseUserpassCredentials (c : List Nat) :
    Option (List Nat × List Nat) :=
  if c.length < 3 then none
  else
    let version := c.headD 0
    if version ≠ 1 then none
    else
      let usernameLen := (c.drop 1).headD 0
      if c.length < 2 + usernameLen + 1 then none
      else
        let username := (c.drop 2).take usernameLen
        let passwordLen := (c.drop (2 + usernameLen)).headD 0
        if c.length < 2 + usernameLen + 1 + passwordLen then none
        else some (username, (c.drop (3 + usernameLen)).take passwordLen)

/-- `AuthManager::authenticate` (lines 38-122): rate-limit gate, then per
method; every outcome is `Ok`, failures carry `success = false` and an
empty session id. -/
def authenticate (st : AuthManagerState) (method : AuthMethod)
    (credentials : List Nat) (clientIp : Ip) (now : Nat) :
    Except (List Nat) AuthResult × AuthManagerState :=
  if isRateLimited st clientIp now then
    (.ok ⟨false, none, []⟩, st)
  else
    match method with
    | .noAuth =>
      if !st.authEnabled then
        (.ok ⟨true, some anonymousBytes, createSessionId st⟩, bumpSession st)
      else
        (.ok ⟨false, none, []⟩, recordIpAuthFailure st clientIp now)
    | .userPass =>
      match parseUserpassCredentials credentials with
      | some (username, password) =>
        if isUserRateLimited st username now then
          (.ok ⟨false, none, []⟩, st)
        else if validateUser st username password then
          let st := resetUserRateLimit (resetIpRateLimit st clientIp) username
          (.ok ⟨true, some username, createSessionId st⟩, bumpSession st)
        else
          (.ok ⟨false, none, []⟩,
            recordUserAuthFailure (recordIpAuthFailure st clientIp now)
              username now)
      | none =>
        (.ok ⟨false, none, []⟩, recordIpAuthFailure st clientIp now)
    | .unsupported => (.ok ⟨false, none, []⟩, st)

/-- C9: `authenticate` is total — for every method, credential byte
string (including short or truncated frames) and client IP the returned
`Result` is `Ok`, and every failure is reported as `success = false`
with an empty session id, never as an `Err`. -/
theorem authenticate_total (st : AuthManagerState) (method : AuthMethod)
    (credentials : List Nat) (clientIp : Ip) (now : Nat) :
    (authenticate st method credentials clientIp now).1.isOk = true ∧
    ∀ r : AuthResult,
      (authenticate st method credentials clientIp now).1 = .ok r →
      r.success = false → r.sessionId = [] := by
  unfold authenticate
  by_cases hrl : isRateLimited st clientIp now
  · rw [if_pos hrl]
    exact ⟨rfl, fun r h hs => by cases h; rfl⟩
  · rw [if_neg hrl]
    cases method with
    | noAuth =>
      by_cases he : (!st.authEnabled) = true
      · rw [if_pos he]
        exact ⟨rfl, fun r h hs => by cases h; exact nomatch hs⟩
      · rw [if_neg he]
        exact ⟨rfl, fun r h hs => by cases h; rfl⟩
    | userPass =>
      cases hp : parseUserpassCredentials credentials with
      | none =>
        simp only [hp]
        exact ⟨rfl, fun r h hs => by cases h; rfl⟩
      | some up =>
        obtain ⟨username, password⟩ := up
        simp only [hp]
        by_cases hurl : isUserRateLimited st username now
        · rw [if_pos hurl]
          exact ⟨rfl, fun r h hs => by cases h; rfl⟩
        · rw [if_neg hurl]
          by_cases hv : validateUser st username password
          · rw [if_pos hv]
            exact ⟨rfl, fun r h hs => by cases h; exact nomatch hs⟩
          · rw [if_neg hv]
            exact ⟨rfl, fun r h hs => by cases h; rfl⟩
    | unsupported => exact ⟨rfl, fun r h hs => by cases h; rfl⟩

/-! ## DDoS protection connection counters
(`src/security/ddos_protection.rs`)

The `u32` concurrent-connection counters are modelled as integers with
the `u32` wrap-around on increment made explicit, so that non-negativity
is a real property of the guarded decrement rather than of the carrier
type. -/

/-- `ConnectionFloodDetector` from `src/security/ddos_protection.rs`. -/
structure ConnectionFloodDetector where
  connectionTimes : List Nat
  totalConnections : Nat
  blockedUntil : Option Nat
  lastActivity : Nat
  currentConnections : Int
  violationCount : Nat

/-- `ConnectionFloodDetector::new`. -/
def ConnectionFloodDetector.new (now : Nat) : ConnectionFloodDetector where
  connectionTimes := []
  totalConnections := 0
  blockedUntil := none
  lastActivity := now
  currentConnections := 0
  violationCount := 0

/-- `ConnectionFloodDetector::connection_started`:
`current_connections += 1` (`u32`, wrapping). -/
def cfdConnectionStarted (d : ConnectionFloodDetector) :
    ConnectionFloodDetector :=
  { d with currentConnections := (d.currentConnections + 1) % 2 ^ 32 }

/-- `ConnectionFloodDetector::connection_ended` (lines 127-131): decrement
only when the count is positive, so the unsigned subtraction cannot
underflow. -/
def cfdConnectionEnded (d : ConnectionFloodDetector) :
    ConnectionFloodDetector :=
  if 0 < d.currentConnections then
    { d with currentConnections := d.currentConnections - 1 }
  else d

/-- The `DdosProtection` state relevant to concurrent-connection
tracking: the per-IP detectors and the global counter from
`GlobalDdosStats` (`peak_global_connections` tracked alongside). -/
structure DdosState where
  enabled : Bool
  ipDetectors : List (Ip × ConnectionFloodDetector)
  currentGlobalConnections : Int
  peakGlobalConnections : Int

/-- `DdosProtection::connection_started`: mutate the detector if one
exists (`get_mut`, no insertion), then bump the global counter and the
peak. -/
def ddosConnectionStarted (st : DdosState) (ip : Ip) : DdosState :=
  if !st.enabled then st
  else
    let detectors := mapAdjust ip cfdConnectionStarted st.ipDetectors
    let global := (st.currentGlobalConnections + 1) % 2 ^ 32
    { st with ipDetectors := detectors,
              currentGlobalConnections := global,
              peakGlobalConnections :=
                if st.peakGlobalConnections < global then global
                else st.peakGlobalConnections }

/-- `DdosProtection::connection_ended` (lines 280-297): mutate the
detector if one exists, then decrement the global counter only when it
is positive. -/
def ddosConnectionEnded (st : DdosState) (ip : Ip) : DdosState :=
  if !st.enabled then st
  else
    let detectors := mapAdjust ip cfdConnectionEnded st.ipDetectors
    let global :=
      if 0 < st.currentGlobalConnections then st.currentGlobalConnections - 1
      else st.currentGlobalConnections
    { st with ipDetectors := detectors, currentGlobalConnections := global }

/-- A start/end event stream. -/
inductive ConnEvent where
  | started (ip : Ip)
  | ended (ip : Ip)

/-- Apply one event. -/
def applyConnEvent (st : DdosState) : ConnEvent → DdosState
  | .started ip => ddosConnectionStarted st ip
  | .ended ip => ddosConnectionEnded st ip

/-- Fold an event stream. -/
def runConnEvents (st : DdosState) (events : List ConnEvent) : DdosState :=
  events.foldl applyConnEvent st

/-- All concurrent-connection counters are within `[0, 2^32)`. -/
def ddosCountersGood (st : DdosState) : Prop :=
  0 ≤ st.currentGlobalConnections ∧ st.currentGlobalConnections < 2 ^ 32 ∧
  ∀ p ∈ st.ipDetectors,
    0 ≤ p.2.currentConnections ∧ p.2.currentConnections < 2 ^ 32

theorem mapAdjust_mem {κ β : Type} [BEq κ] (k : κ) (f : β → β)
    (P : β → Prop) (hf : ∀ v, P v → P (f v)) (l : List (κ × β)) :
    (∀ p ∈ l, P p.2) → ∀ p ∈ mapAdjust k f l, P p.2 := by
  induction l with
  | nil => intro _ p hp; cases hp
  | cons kv rest ih =>
    obtain ⟨k', v⟩ := kv
    intro h p hp
    by_cases hk : (k' == k) = true
    · simp only [mapAdjust, if_pos hk] at hp
      rcases List.mem_cons.mp hp with hp | hp
      · subst hp
        exact hf v (h (k', v) (List.mem_cons_self _ _))
      · exact h p (List.mem_cons_of_mem _ hp)
    · simp only [mapAdjust, if_neg hk] at hp
      rcases List.mem_cons.mp hp with hp | hp
      · subst hp
        exact h (k', v) (List.mem_cons_self _ _)
      · exact ih (fun q hq => h q (List.mem_cons_of_mem _ hq)) p hp

theorem cfdConnectionStarted_good (d : ConnectionFloodDetector)
    (_h : 0 ≤ d.currentConnections ∧ d.currentConnections < 2 ^ 32) :
    0 ≤ (cfdConnectionStarted d).currentConnections ∧
      (cfdConnectionStarted d).currentConnections < 2 ^ 32 := by
  unfold cfdConnectionStarted
  constructor
  · exact Int.emod_nonneg _ (by norm_num)
  · exact Int.emod_lt_of_pos _ (by norm_num)

theorem cfdConnectionEnded_good (d : ConnectionFloodDetector)
    (h : 0 ≤ d.currentConnections ∧ d.currentConnections < 2 ^ 32) :
    0 ≤ (cfdConnectionEnded d).currentConnections ∧
      (cfdConnectionEnded d).currentConnections < 2 ^ 32 := by
  unfold cfdConnectionEnded
  by_cases hpos : 0 < d.currentConnections
  · rw [if_pos hpos]
    exact ⟨by simp; omega, by simp; omega⟩
  · rw [if_neg hpos]
    exact h

theorem applyConnEvent_good (st : DdosState) (e : ConnEvent)
    (h : ddosCountersGood st) : ddosCountersGood (applyConnEvent st e) := by
  obtain ⟨hg0, hglt, hdet⟩ := h
  cases e with
  | started ip =>
    simp only [applyConnEvent]
    unfold ddosConnectionStarted
    by_cases he : (!st.enabled) = true
    · rw [if_pos he]
      exact ⟨hg0, hglt, hdet⟩
    · rw [if_neg he]
      refine ⟨Int.emod_nonneg _ (by norm_num),
        Int.emod_lt_of_pos _ (by norm_num), ?_⟩
      exact mapAdjust_mem ip cfdConnectionStarted _
        (fun v hv => cfdConnectionStarted_good v hv) st.ipDetectors hdet
  | ended ip =>
    simp only [applyConnEvent]
    unfold ddosConnectionEnded
    by_cases he : (!st.enabled) = true
    · rw [if_pos he]
      exact ⟨hg0, hglt, hdet⟩
    · rw [if_neg he]
      refine ⟨?_, ?_, ?_⟩
      · by_cases hpos : 0 < st.currentGlobalConnections
        · simp only [if_pos hpos]; omega
        · simp only [if_neg hpos]; exact hg0
      · by_cases hpos : 0 < st.currentGlobalConnections
        · simp only [if_pos hpos]; omega
        · simp only [if_neg hpos]; exact hglt
      · exact mapAdjust_mem ip cfdConnectionEnded _
          (fun v hv => cfdConnectionEnded_good v hv) st.ipDetectors hdet

theorem runConnEvents_good (events : List ConnEvent) :
    ∀ st : DdosState, ddosCountersGood st →
      ddosCountersGood (runConnEvents st events) := by
  induction events with
  | nil => intro st h; exact h
  | cons e es ih =>
    intro st h
    exact ih (applyConnEvent st e) (applyConnEvent_good st e h)

/-- C10: for every sequence of `connection_started`/`connection_ended`
events from a state whose counters are in range — including an
`connection_ended` for an IP without a detector entry or with a zero
count — the per-IP and global concurrent-connection counters stay in
`[0, 2^32)`; a `connection_ended` on a zero per-IP count or a zero
global count leaves it at zero (the guarded decrement makes the
unsigned-subtraction underflow branch unreachable). -/
theorem ddos_counters_never_underflow (events : List ConnEvent)
    (st : DdosState) (hgood : ddosCountersGood st)
    (d : ConnectionFloodDetector) (hd : d.currentConnections = 0)
    (st₂ : DdosState) (ip : Ip) (hz : st₂.currentGlobalConnections = 0) :
    ddosCountersGood (runConnEvents st events) ∧
    (cfdConnectionEnded d).currentConnections = 0 ∧
    (ddosConnectionEnded st₂ ip).currentGlobalConnections = 0 := by
  refine ⟨runConnEvents_good events st hgood, ?_, ?_⟩
  · unfold cfdConnectionEnded
    rw [if_neg (by omega)]
    exact hd
  · unfold ddosConnectionEnded
    by_cases he : (!st₂.enabled) = true
    · rw [if_pos he]; exact hz
    · rw [if_neg he]
      simp only [if_neg (show ¬ 0 < st₂.currentGlobalConnections by omega)]
      exact hz

/-- C10 (witness): one stray `connection_ended` on a fresh, empty state
leaves every counter at zero and in range. -/
theorem ddos_counters_never_underflow_witness :
    ddosCountersGood (runConnEvents ⟨true, [], 0, 0⟩
      [ConnEvent.ended ⟨false, 1⟩]) ∧
    (cfdConnectionEnded (ConnectionFloodDetector.new 0)).currentConnections = 0 ∧
    (ddosConnectionEnded ⟨true, [], 0, 0⟩ ⟨false, 1⟩).currentGlobalConnections = 0 :=
  ddos_counters_never_underflow [ConnEvent.ended ⟨false, 1⟩]
    ⟨true, [], 0, 0⟩ ⟨by decide, by decide, fun p hp => by cases hp⟩
    (ConnectionFloodDetector.new 0) rfl ⟨true, [], 0, 0⟩ ⟨false, 1⟩ rfl

/-! ## Theorems for C1 -/

/-- C1 (counterexample): with authentication globally enabled and the
client offering both `0x00` and `0x02`, the claim requires `UserPass`,
but `select_auth_method` — which never consults the global setting —
selects `NoAuth`. -/
theorem selectAuthMethod_both_noAuth_counterexample :
    selectAuthMethod [SOCKS5_AUTH_NONE, SOCKS5_AUTH_USERPASS] = .noAuth ∧
    specSelectAuthMethod true [SOCKS5_AUTH_NONE, SOCKS5_AUTH_USERPASS] = .userPass ∧
    AuthMethod.noAuth ≠ AuthMethod.userPass := by
  refine ⟨by decide, by decide, by decide⟩

/-- C1 (amended): the server selects `NoAuth` whenever the client offered
`0x00`, regardless of the global authentication setting; otherwise
`UserPass` when the client offered `0x02`; otherwise the `Unsupported`
method, whose wire code is `0xFF`, and the connection is closed. -/
theorem selectAuthMethod_cases (methods : List Nat) :
    (SOCKS5_AUTH_NONE ∈ methods → selectAuthMethod methods = .noAuth) ∧
    (SOCKS5_AUTH_NONE ∉ methods → SOCKS5_AUTH_USERPASS ∈ methods →
      selectAuthMethod methods = .userPass) ∧
    (SOCKS5_AUTH_NONE ∉ methods → SOCKS5_AUTH_USERPASS ∉ methods →
      selectAuthMethod methods = .unsupported ∧
      AuthMethod.unsupported.methodCode = 0xFF) := by
  refine ⟨fun h => ?_, fun h h₂ => ?_, fun h h₂ => ?_⟩
  · simp [selectAuthMethod, h]
  · simp [selectAuthMethod, h, h₂]
  · simp [selectAuthMethod, h, h₂, AuthMethod.methodCode, SOCKS5_AUTH_UNSUPPORTED]

/-- C1 (witness): a client offering only `0x02` gets `UserPass`. -/
theorem selectAuthMethod_cases_witness :
    selectAuthMethod [SOCKS5_AUTH_USERPASS] = .userPass :=
  (selectAuthMethod_cases [SOCKS5_AUTH_USERPASS]).2.1 (by decide) (by decide)

/-! ## Theorems for C2 -/

/-- C2 (counterexample): an error text containing `host unreachable` is
mapped by the code to `NetworkUnreachable` (0x03) — the bare
`unreachable` check of the third branch fires first — while the claim
requires `HostUnreachable` (0x04). -/
theorem connectionError_host_unreachable_counterexample :
    connectionErrorToSocks5Code "host unreachable".toList =
      SOCKS5_REPLY_NETWORK_UNREACHABLE ∧
    claimErrorToSocks5Code "host unreachable".toList =
      SOCKS5_REPLY_HOST_UNREACHABLE ∧
    SOCKS5_REPLY_NETWORK_UNREACHABLE ≠ SOCKS5_REPLY_HOST_UNREACHABLE := by
  refine ⟨by decide, by decide, by decide⟩

/-- C2 (amended): the reply code is `TtlExpired` (0x06) if the lowercased
text contains `timed out` or `timeout`; else `ConnectionRefused` (0x05)
if it contains `refused`; else `NetworkUnreachable` (0x03) if it contains
`unreachable` (which subsumes both `network unreachable` and
`host unreachable`); else `HostUnreachable` (0x04) if it contains
`no route`; else `HostUnreachable` (0x04) if it contains `dns` or
`resolution`; else `GeneralFailure` (0x01).  In particular, a text
containing `host unreachable` maps to `NetworkUnreachable` (0x03). -/
theorem connectionErrorToSocks5Code_cases (errorText : List Char) :
    (("timed out".toList <:+: errorText.map Char.toLower ∨
      "timeout".toList <:+: errorText.map Char.toLower) →
      connectionErrorToSocks5Code errorText = SOCKS5_REPLY_TTL_EXPIRED) ∧
    (¬("timed out".toList <:+: errorText.map Char.toLower ∨
       "timeout".toList <:+: errorText.map Char.toLower) →
     "refused".toList <:+: errorText.map Char.toLower →
      connectionErrorToSocks5Code errorText = SOCKS5_REPLY_CONNECTION_REFUSED) ∧
    (¬("timed out".toList <:+: errorText.map Char.toLower ∨
       "timeout".toList <:+: errorText.map Char.toLower) →
     ¬("refused".toList <:+: errorText.map Char.toLower) →
     "unreachable".toList <:+: errorText.map Char.toLower →
      connectionErrorToSocks5Code errorText = SOCKS5_REPLY_NETWORK_UNREACHABLE) ∧
    (¬("timed out".toList <:+: errorText.map Char.toLower ∨
       "timeout".toList <:+: errorText.map Char.toLower) →
     ¬("refused".toList <:+: errorText.map Char.toLower) →
     ¬("unreachable".toList <:+: errorText.map Char.toLower) →
     "no route".toList <:+: errorText.map Char.toLower →
      connectionErrorToSocks5Code errorText = SOCKS5_REPLY_HOST_UNREACHABLE) ∧
    (¬("timed out".toList <:+: errorText.map Char.toLower ∨
       "timeout".toList <:+: errorText.map Char.toLower) →
     ¬("refused".toList <:+: errorText.map Char.toLower) →
     ¬("unreachable".toList <:+: errorText.map Char.toLower) →
     ¬("no route".toList <:+: errorText.map Char.toLower) →
     ("dns".toList <:+: errorText.map Char.toLower ∨
      "resolution".toList <:+: errorText.map Char.toLower) →
      connectionErrorToSocks5Code errorText = SOCKS5_REPLY_HOST_UNREACHABLE) ∧
    (¬("timed out".toList <:+: errorText.map Char.toLower ∨
       "timeout".toList <:+: errorText.map Char.toLower) →
     ¬("refused".toList <:+: errorText.map Char.toLower) →
     ¬("unreachable".toList <:+: errorText.map Char.toLower) →
     ¬("no route".toList <:+: errorText.map Char.toLower) →
     ¬("dns".toList <:+: errorText.map Char.toLower ∨
       "resolution".toList <:+: errorText.map Char.toLower) →
      connectionErrorToSocks5Code errorText = SOCKS5_REPLY_GENERAL_FAILURE) ∧
    connectionErrorToSocks5Code "host unreachable".toList =
      SOCKS5_REPLY_NETWORK_UNREACHABLE := by
  have hcr : ¬("refused".toList <:+: errorText.map Char.toLower) →
      ¬("connection refused".toList <:+: errorText.map Char.toLower) := by
    intro h hc
    exact h (List.IsInfix.trans (by decide) hc)
  have hnu : ¬("unreachable".toList <:+: errorText.map Char.toLower) →
      ¬("network unreachable".toList <:+: errorText.map Char.toLower) := by
    intro h hc
    exact h (List.IsInfix.trans (by decide) hc)
  have hhu : ¬("unreachable".toList <:+: errorText.map Char.toLower) →
      ¬("host unreachable".toList <:+: errorText.map Char.toLower) := by
    intro h hc
    exact h (List.IsInfix.trans (by decide) hc)
  unfold connectionErrorToSocks5Code
  refine ⟨fun h => ?_, fun h₁ h₂ => ?_, fun h₁ h₂ h₃ => ?_,
    fun h₁ h₂ h₃ h₄ => ?_, fun h₁ h₂ h₃ h₄ h₅ => ?_,
    fun h₁ h₂ h₃ h₄ h₅ => ?_, by decide⟩
  · simp only [if_pos h]
  · simp only [if_neg h₁, if_pos (Or.inr h₂)]
  · simp only [if_neg h₁, if_neg (not_or.mpr ⟨hcr h₂, h₂⟩),
      if_pos (Or.inr h₃)]
  · simp only [if_neg h₁, if_neg (not_or.mpr ⟨hcr h₂, h₂⟩),
      if_neg (not_or.mpr ⟨hnu h₃, h₃⟩), if_pos (Or.inr h₄)]
  · simp only [if_neg h₁, if_neg (not_or.mpr ⟨hcr h₂, h₂⟩),
      if_neg (not_or.mpr ⟨hnu h₃, h₃⟩),
      if_neg (not_or.mpr ⟨hhu h₃, h₄⟩), if_pos h₅]
  · simp only [if_neg h₁, if_neg (not_or.mpr ⟨hcr h₂, h₂⟩),
      if_neg (not_or.mpr ⟨hnu h₃, h₃⟩),
      if_neg (not_or.mpr ⟨hhu h₃, h₄⟩), if_neg h₅]

/-- C2 (witness): `no route to host` maps to `HostUnreachable` (0x04). -/
theorem connectionErrorToSocks5Code_cases_witness :
    connectionErrorToSocks5Code "no route to host".toList =
      SOCKS5_REPLY_HOST_UNREACHABLE :=
  (connectionErrorToSocks5Code_cases "no route to host".toList).2.2.2.1
    (by decide) (by decide) (by decide) (by decide)

end RustProxy
